/-
Shallow embedding of the energy-consumption ETL pipeline
(fetch → load → clean → aggregate) and proofs of its specified properties.

The pipeline under study:
  * `fetch_energy_data url save_path` performs an HTTP GET; on status 200 it
    writes the full response body to `save_path` and prints a success message,
    on any other status it prints "Failed to download data" and writes nothing;
    it has no exception handler, so a transport-level error from the GET
    propagates to the caller.
  * cleaning: `df.fillna({"energy_consumption": mean})` where the mean is
    collected once from the whole dataframe before any replacement, followed by
    `df.withColumn("timestamp_column", to_timestamp(col("utc_timestamp")))`.
  * aggregation: `df.withColumn("date", date_trunc("day", col("timestamp_column")))
    .groupBy("date").agg(sum("energy_consumption").alias("total_daily_consumption"))`.

Modelling choices:
  * a dataframe row is a `Record`; columns other than the ones the pipeline
    touches are kept abstractly in the `other` field;
  * missing (null) cells are `Option.none`; numeric cells are exact rationals;
  * `to_timestamp` is modelled as a parser of the dataset's fixed
    `yyyy-MM-ddTHH:mm:ssZ` timestamp format, returning `none` on failure;
  * the aggregation's group keys are the distinct values of the `date` column
    (`List.dedup`); the output order of groups is unspecified in the contract,
    so any fixed enumeration of the distinct keys is a faithful model;
  * the degenerate cleaning case (no non-missing `energy_consumption` at all)
    makes the collected mean null and `fillna` fail, so `clean` is `Option`-valued.
-/
import Mathlib

set_option autoImplicit false

/-- A structured date-time value, the parse result of a `utc_timestamp` string. -/
structure Timestamp where
  year : Nat
  month : Nat
  day : Nat
  hour : Nat
  minute : Nat
  second : Nat
deriving DecidableEq, Repr

/-- One dataframe row. `energy_consumption` and `timestamp_column` are nullable
columns (`none` = null); `other` holds the remaining columns abstractly as
name/value pairs. Before cleaning, `timestamp_column` is null. -/
structure Record where
  utc_timestamp : String
  energy_consumption : Option ℚ
  timestamp_column : Option Timestamp
  other : List (String × String)
deriving DecidableEq, Repr

/-- Decimal digit value of a character, `none` if not a digit. -/
def parseDigit (c : Char) : Option Nat :=
  if c.isDigit then some (c.toNat - 48) else none

/-- Parse exactly two decimal digits, returning the value and the rest. -/
def parseNat2 : List Char → Option (Nat × List Char)
  | c1 :: c2 :: rest => do
      let d1 ← parseDigit c1
      let d2 ← parseDigit c2
      some (10 * d1 + d2, rest)
  | _ => none

/-- Parse exactly four decimal digits, returning the value and the rest. -/
def parseNat4 : List Char → Option (Nat × List Char)
  | c1 :: c2 :: c3 :: c4 :: rest => do
      let d1 ← parseDigit c1
      let d2 ← parseDigit c2
      let d3 ← parseDigit c3
      let d4 ← parseDigit c4
      some (1000 * d1 + 100 * d2 + 10 * d3 + d4, rest)
  | _ => none

/-- Consume one expected character. -/
def expectChar (c : Char) : List Char → Option (List Char)
  | c2 :: rest => if c2 = c then some rest else none
  | [] => none

/-- Model of the engine's `to_timestamp` applied to the dataset's
`utc_timestamp` strings: parse of the fixed format `yyyy-MM-ddTHH:mm:ssZ`,
`none` when the string does not match it. -/
def to_timestamp (s : String) : Option Timestamp := do
  let cs0 := s.toList
  let (y, cs1) ← parseNat4 cs0
  let cs2 ← expectChar '-' cs1
  let (mo, cs3) ← parseNat2 cs2
  let cs4 ← expectChar '-' cs3
  let (d, cs5) ← parseNat2 cs4
  let cs6 ← expectChar 'T' cs5
  let (h, cs7) ← parseNat2 cs6
  let cs8 ← expectChar ':' cs7
  let (mi, cs9) ← parseNat2 cs8
  let cs10 ← expectChar ':' cs9
  let (sec, cs11) ← parseNat2 cs10
  let cs12 ← expectChar 'Z' cs11
  match cs12 with
  | [] => some ⟨y, mo, d, h, mi, sec⟩
  | _ => none

/-- The non-null `energy_consumption` values of a dataset, in row order. -/
def presentValues (rs : List Record) : List ℚ :=
  rs.filterMap (fun r => r.energy_consumption)

/-- The collected column mean `df.agg({"energy_consumption": "mean"})`:
null when every cell is null, otherwise the exact arithmetic mean of the
non-null cells. -/
def meanEnergy (rs : List Record) : Option ℚ :=
  if (presentValues rs).length = 0 then none
  else some ((presentValues rs).sum / ((presentValues rs).length : ℚ))

/-- The mean value used for imputation, as a rational (meaningful when at
least one cell is non-null). -/
def meanValue (rs : List Record) : ℚ :=
  (presentValues rs).sum / ((presentValues rs).length : ℚ)

/-- The per-row effect of the cleaning cell: `fillna` replaces a null
`energy_consumption` with the given mean and keeps non-null values, and
`withColumn` overwrites `timestamp_column` with the parse of `utc_timestamp`.
All other columns are untouched. -/
def cleanRecord (m : ℚ) (r : Record) : Record :=
  { utc_timestamp := r.utc_timestamp
    energy_consumption := some (r.energy_consumption.getD m)
    timestamp_column := to_timestamp r.utc_timestamp
    other := r.other }

/-- The cleaning cell: collect the column mean once over the full dataset,
then fill nulls with it and parse the timestamp column, row by row.
When the collected mean is null (no non-null cell), `fillna` has no valid
fill value and the step fails: `none`. -/
def clean (rs : List Record) : Option (List Record) :=
  (meanEnergy rs).map (fun m => rs.map (cleanRecord m))

/-- Model of `date_trunc("day", t)`: keep the calendar-date fields, zero the
time-of-day fields. -/
def date_trunc_day (t : Timestamp) : Timestamp :=
  { year := t.year, month := t.month, day := t.day, hour := 0, minute := 0, second := 0 }

/-- The `date` grouping column of a row: `date_trunc("day", timestamp_column)`,
null when the timestamp column is null. -/
def dayKey (r : Record) : Option Timestamp :=
  r.timestamp_column.map date_trunc_day

/-- The engine's aggregate `sum` over a group: nulls are ignored, and the
result is null exactly when the group has no non-null value. -/
def sumEnergy (rs : List Record) : Option ℚ :=
  if rs.filterMap (fun r => r.energy_consumption) = [] then none
  else some ((rs.filterMap (fun r => r.energy_consumption)).sum)

/-- One output row of the daily aggregation. -/
structure DailyAggregate where
  date : Option Timestamp
  total_daily_consumption : Option ℚ
deriving DecidableEq, Repr

/-- The aggregation cell `daily_consumption`: add the `date` column, group by
it, and sum `energy_consumption` per group. One output row per distinct value
of the `date` column; group output order is unspecified by the engine, so the
model fixes one enumeration of the distinct keys. -/
def aggregate_daily (rs : List Record) : List DailyAggregate :=
  ((rs.map dayKey).dedup).map (fun k =>
    { date := k
      total_daily_consumption := sumEnergy (rs.filter (fun r => dayKey r = k)) })

/-- An HTTP response as seen by `fetch_energy_data`: a status code and a body
(a byte sequence). -/
structure HttpResponse where
  status_code : Nat
  content : List Nat
deriving DecidableEq, Repr

/-- The observable outcome of one `fetch_energy_data` call that received a
response: the file content written to `save_path` (`none` = no file written)
and the message printed. -/
structure FetchResult where
  written : Option (List Nat)
  message : String
deriving DecidableEq, Repr

/-- Body of `fetch_energy_data` once `requests.get` has returned a response:
on status 200 write the full body to `save_path` and print the success
message; on any other status print the failure message and write nothing.
The function is total: no branch raises. -/
def fetch_energy_data (save_path : String) (response : HttpResponse) : FetchResult :=
  if response.status_code = 200 then
    { written := some response.content
      message := "Data saved to " ++ save_path }
  else
    { written := none
      message := "Failed to download data" }

/-- One fetch call as executed: `requests.get` either returns a response or
raises a transport-level error (modelled as `Except.error`). The body of
`fetch_energy_data` has no handler around the GET, so an error propagates
unchanged; a received response is processed by `fetch_energy_data`. -/
def fetch_energy_data_run (save_path : String) (r : Except String HttpResponse) :
    Except String FetchResult :=
  r.bind (fun resp => Except.ok (fetch_energy_data save_path resp))

/-- When at least one `energy_consumption` cell is non-null, the cleaning
step succeeds and maps each row through `cleanRecord` with the single mean
collected from the full input. -/
theorem clean_eq_map (rs : List Record) (h : presentValues rs ≠ []) :
    clean rs = some (rs.map (cleanRecord (meanValue rs))) := by
  unfold clean meanEnergy meanValue
  rw [if_neg (by simpa using h)]
  rfl

/-- Claim C4: for every fetch call that receives an HTTP response, the call
returns normally (no exception); on status 200 the full response body is
written to the destination path, and on any other status no file is written
and the failure message is emitted. -/
theorem fetch_energy_data_response_behavior (save_path : String) (resp : HttpResponse) :
    fetch_energy_data_run save_path (Except.ok resp)
        = Except.ok (fetch_energy_data save_path resp) ∧
    (fetch_energy_data save_path resp).written
        = (if resp.status_code = 200 then some resp.content else none) ∧
    (fetch_energy_data save_path resp).message
        = (if resp.status_code = 200 then "Data saved to " ++ save_path
           else "Failed to download data") := by
  refine ⟨rfl, ?_, ?_⟩ <;> by_cases h : resp.status_code = 200 <;>
    simp [fetch_energy_data, h]

/-- Claim C10: when the underlying HTTP GET fails before yielding a response
(a transport-level error), `fetch_energy_data` propagates the error unchanged:
nothing in its body catches it, and no `FetchResult` (hence no file) is
produced. -/
theorem fetch_energy_data_propagates_get_errors (save_path e : String) :
    fetch_energy_data_run save_path (Except.error e) = Except.error e := rfl

/-- Claim C1: whenever at least one `energy_consumption` value is non-null,
cleaning replaces every null cell of that column with the arithmetic mean of
the non-null cells — the mean of the full input dataset, computed before any
replacement — and leaves every non-null cell unchanged. -/
theorem clean_imputes_frozen_mean (rs : List Record) (h : presentValues rs ≠ []) :
    ∃ cs, clean rs = some cs ∧ cs.length = rs.length ∧
      ∀ i : Nat, cs[i]?.map (fun r => r.energy_consumption)
        = rs[i]?.map (fun r => some (r.energy_consumption.getD (meanValue rs))) := by
  refine ⟨rs.map (cleanRecord (meanValue rs)), clean_eq_map rs h, by simp, ?_⟩
  intro i
  rw [List.getElem?_map]
  cases rs[i]? with
  | none => rfl
  | some r => rfl

/-- Witness for C1 on the specification's own scenario `[10, null, 20]`. -/
theorem clean_imputes_frozen_mean_witness :
    presentValues
        [⟨"2020-01-01T00:00:00Z", some 10, none, []⟩,
         ⟨"2020-01-01T12:00:00Z", none, none, []⟩,
         ⟨"2020-01-02T00:00:00Z", some 20, none, []⟩] ≠ [] ∧
    (∃ cs, clean
        [⟨"2020-01-01T00:00:00Z", some 10, none, []⟩,
         ⟨"2020-01-01T12:00:00Z", none, none, []⟩,
         ⟨"2020-01-02T00:00:00Z", some 20, none, []⟩] = some cs ∧
      cs.length =
        (([⟨"2020-01-01T00:00:00Z", some 10, none, []⟩,
           ⟨"2020-01-01T12:00:00Z", none, none, []⟩,
           ⟨"2020-01-02T00:00:00Z", some 20, none, []⟩] : List Record)).length ∧
      ∀ i : Nat, cs[i]?.map (fun r => r.energy_consumption)
        = (([⟨"2020-01-01T00:00:00Z", some 10, none, []⟩,
             ⟨"2020-01-01T12:00:00Z", none, none, []⟩,
             ⟨"2020-01-02T00:00:00Z", some 20, none, []⟩] : List Record))[i]?.map
            (fun r => some (r.energy_consumption.getD (meanValue
              [⟨"2020-01-01T00:00:00Z", some 10, none, []⟩,
               ⟨"2020-01-01T12:00:00Z", none, none, []⟩,
               ⟨"2020-01-02T00:00:00Z", some 20, none, []⟩])))) :=
  ⟨by decide, clean_imputes_frozen_mean _ (by decide)⟩

/-- Counterexample to C7 as stated: on a batch whose every `energy_consumption`
is null, the collected mean is null, `fillna` has no valid fill value, and the
cleaning step produces no output sequence at all. -/
theorem clean_counterexample_all_missing :
    clean [⟨"2020-01-01T00:00:00Z", none, none, []⟩] = none ∧
    ¬ ∃ cs, clean [⟨"2020-01-01T00:00:00Z", none, none, []⟩] = some cs ∧
        cs.length = 1 := by
  refine ⟨rfl, ?_⟩
  rintro ⟨cs, hcs, -⟩
  rw [show clean [⟨"2020-01-01T00:00:00Z", none, none, []⟩] = none from rfl] at hcs
  cases hcs

/-- Claim C7 (amended): for every input with at least one non-null
`energy_consumption`, cleaning returns a sequence of the same length, and the
row at every position keeps the identifying columns of the input row at the
same position — no row is dropped, duplicated, or reordered. -/
theorem clean_preserves_cardinality_and_order (rs : List Record)
    (h : presentValues rs ≠ []) :
    ∃ cs, clean rs = some cs ∧ cs.length = rs.length ∧
      ∀ i : Nat, cs[i]?.map (fun r => (r.utc_timestamp, r.other))
        = rs[i]?.map (fun r => (r.utc_timestamp, r.other)) := by
  refine ⟨rs.map (cleanRecord (meanValue rs)), clean_eq_map rs h, by simp, ?_⟩
  intro i
  rw [List.getElem?_map]
  cases rs[i]? with
  | none => rfl
  | some r => rfl

/-- Witness for the amended C7 on a two-row input. -/
theorem clean_preserves_cardinality_and_order_witness :
    presentValues
        [⟨"2020-01-01T00:00:00Z", some 3, none, [("cet_cest_timestamp", "x")]⟩,
         ⟨"2020-01-02T00:00:00Z", some 4, none, []⟩] ≠ [] ∧
    (∃ cs, clean
        [⟨"2020-01-01T00:00:00Z", some 3, none, [("cet_cest_timestamp", "x")]⟩,
         ⟨"2020-01-02T00:00:00Z", some 4, none, []⟩] = some cs ∧
      cs.length =
        (([⟨"2020-01-01T00:00:00Z", some 3, none, [("cet_cest_timestamp", "x")]⟩,
           ⟨"2020-01-02T00:00:00Z", some 4, none, []⟩] : List Record)).length ∧
      ∀ i : Nat, cs[i]?.map (fun r => (r.utc_timestamp, r.other))
        = (([⟨"2020-01-01T00:00:00Z", some 3, none, [("cet_cest_timestamp", "x")]⟩,
             ⟨"2020-01-02T00:00:00Z", some 4, none, []⟩] : List Record))[i]?.map
            (fun r => (r.utc_timestamp, r.other))) :=
  ⟨by decide, clean_preserves_cardinality_and_order _ (by decide)⟩

/-- Claim C9: whenever cleaning produces an output, every column other than
`energy_consumption` of every row is unchanged — in particular the original
`utc_timestamp` string is kept, and the parsed value goes to the separate
`timestamp_column` — and a non-null `energy_consumption` cell keeps its
value, so only null cells of that column are modified. -/
theorem clean_frame_effect (rs cs : List Record) (h : clean rs = some cs) :
    cs.length = rs.length ∧
    (∀ i : Nat, cs[i]?.map (fun r => (r.utc_timestamp, r.other))
        = rs[i]?.map (fun r => (r.utc_timestamp, r.other))) ∧
    (∀ i : Nat, ∀ r0 r1 : Record, rs[i]? = some r0 → cs[i]? = some r1 →
        r1.timestamp_column = to_timestamp r0.utc_timestamp ∧
        ∀ v : ℚ, r0.energy_consumption = some v →
          r1.energy_consumption = some v) := by
  obtain ⟨m, hm, rfl⟩ := Option.map_eq_some'.mp h
  refine ⟨by simp, ?_, ?_⟩
  · intro i
    rw [List.getElem?_map]
    cases rs[i]? with
    | none => rfl
    | some r => rfl
  · intro i r0 r1 h0 h1
    rw [List.getElem?_map, h0] at h1
    cases h1
    refine ⟨rfl, ?_⟩
    intro v hv
    simp [cleanRecord, hv]

/-- Witness for C9 on a one-row input whose value is present. -/
theorem clean_frame_effect_witness :
    clean [⟨"2020-01-01T00:00:00Z", some 5, none, [("interpolated", "yes")]⟩]
        = some [⟨"2020-01-01T00:00:00Z", some 5,
                 some ⟨2020, 1, 1, 0, 0, 0⟩, [("interpolated", "yes")]⟩] ∧
    ([⟨"2020-01-01T00:00:00Z", some 5,
       some ⟨2020, 1, 1, 0, 0, 0⟩, [("interpolated", "yes")]⟩] : List Record).length =
      ([⟨"2020-01-01T00:00:00Z", some 5, none, [("interpolated", "yes")]⟩] : List Record).length ∧
    (∀ i : Nat,
      (([⟨"2020-01-01T00:00:00Z", some 5,
          some ⟨2020, 1, 1, 0, 0, 0⟩, [("interpolated", "yes")]⟩] : List Record))[i]?.map
          (fun r => (r.utc_timestamp, r.other))
        = (([⟨"2020-01-01T00:00:00Z", some 5, none,
             [("interpolated", "yes")]⟩] : List Record))[i]?.map
            (fun r => (r.utc_timestamp, r.other))) ∧
    (∀ i : Nat, ∀ r0 r1 : Record,
      (([⟨"2020-01-01T00:00:00Z", some 5, none,
          [("interpolated", "yes")]⟩] : List Record))[i]? = some r0 →
      (([⟨"2020-01-01T00:00:00Z", some 5,
          some ⟨2020, 1, 1, 0, 0, 0⟩, [("interpolated", "yes")]⟩] : List Record))[i]? = some r1 →
        r1.timestamp_column = to_timestamp r0.utc_timestamp ∧
        ∀ v : ℚ, r0.energy_consumption = some v →
          r1.energy_consumption = some v) :=
  ⟨by decide,
   clean_frame_effect
     [⟨"2020-01-01T00:00:00Z", some 5, none, [("interpolated", "yes")]⟩]
     [⟨"2020-01-01T00:00:00Z", some 5,
       some ⟨2020, 1, 1, 0, 0, 0⟩, [("interpolated", "yes")]⟩]
     (by decide)⟩

/-- Counterexample to C8 as stated: the empty input is vacuously already-clean,
yet cleaning it does not return it unchanged — the collected mean is null and
the step produces no output at all. -/
theorem clean_counterexample_empty_already_clean :
    (∀ r ∈ ([] : List Record), r.energy_consumption.isSome = true ∧
        r.timestamp_column = to_timestamp r.utc_timestamp) ∧
    clean ([] : List Record) ≠ some [] := by
  exact ⟨by simp, by decide⟩

/-- Claim C8 (amended): on nonempty already-clean data — every
`energy_consumption` non-null and `timestamp_column` already holding the parse
of `utc_timestamp` — cleaning returns the input unchanged, and running it
twice equals running it once. -/
theorem clean_idempotent_on_clean_data (rs : List Record) (hne : rs ≠ [])
    (hclean : ∀ r ∈ rs, r.energy_consumption.isSome = true ∧
        r.timestamp_column = to_timestamp r.utc_timestamp) :
    clean rs = some rs ∧ (clean rs).bind clean = clean rs := by
  have hpv : presentValues rs ≠ [] := by
    cases rs with
    | nil => exact absurd rfl hne
    | cons r rest =>
      obtain ⟨hsome, -⟩ := hclean r (List.mem_cons_self r rest)
      obtain ⟨v, hv⟩ := Option.isSome_iff_exists.mp hsome
      simp [presentValues, List.filterMap_cons, hv]
  have hfix : ∀ r ∈ rs, cleanRecord (meanValue rs) r = r := by
    intro r hr
    obtain ⟨hsome, hts⟩ := hclean r hr
    obtain ⟨v, hv⟩ := Option.isSome_iff_exists.mp hsome
    cases r
    simp_all [cleanRecord]
  have h1 : clean rs = some rs := by
    rw [clean_eq_map rs hpv, List.map_congr_left hfix]
    simp
  exact ⟨h1, by rw [h1, Option.some_bind, h1]⟩

/-- Witness for the amended C8 on a one-row already-clean input. -/
theorem clean_idempotent_on_clean_data_witness :
    ([⟨"2020-01-01T00:00:00Z", some 10,
       some ⟨2020, 1, 1, 0, 0, 0⟩, []⟩] : List Record) ≠ [] ∧
    (∀ r ∈ ([⟨"2020-01-01T00:00:00Z", some 10,
              some ⟨2020, 1, 1, 0, 0, 0⟩, []⟩] : List Record),
        r.energy_consumption.isSome = true ∧
        r.timestamp_column = to_timestamp r.utc_timestamp) ∧
    (clean [⟨"2020-01-01T00:00:00Z", some 10, some ⟨2020, 1, 1, 0, 0, 0⟩, []⟩]
        = some [⟨"2020-01-01T00:00:00Z", some 10, some ⟨2020, 1, 1, 0, 0, 0⟩, []⟩] ∧
      (clean [⟨"2020-01-01T00:00:00Z", some 10,
               some ⟨2020, 1, 1, 0, 0, 0⟩, []⟩]).bind clean
        = clean [⟨"2020-01-01T00:00:00Z", some 10,
                  some ⟨2020, 1, 1, 0, 0, 0⟩, []⟩]) :=
  ⟨by decide, by decide,
   clean_idempotent_on_clean_data
     [⟨"2020-01-01T00:00:00Z", some 10, some ⟨2020, 1, 1, 0, 0, 0⟩, []⟩]
     (by decide) (by decide)⟩

/-- Splitting a mapped sum along a Boolean predicate. -/
theorem sum_map_filter_partition (p : Record → Bool) (f : Record → ℚ) (l : List Record) :
    ((l.filter p).map f).sum + ((l.filter (fun r => ! p r)).map f).sum
      = (l.map f).sum := by
  induction l with
  | nil => simp
  | cons r t ih =>
    by_cases h : p r
    · simp only [List.filter_cons, h, Bool.not_true, Bool.false_eq_true,
        ite_true, ite_false, List.map_cons, List.sum_cons]
      rw [← ih]
      ring
    · simp only [List.filter_cons, h, Bool.not_false, Bool.false_eq_true,
        ite_true, ite_false, List.map_cons, List.sum_cons]
      rw [← ih]
      ring

/-- Summing group sums over a duplicate-free list of keys that covers every
row's key yields the total sum over all rows. -/
theorem sum_over_groups (f : Record → ℚ) (ks : List (Option Timestamp)) :
    ∀ rs : List Record, ks.Nodup → (∀ r ∈ rs, dayKey r ∈ ks) →
      (ks.map (fun k => ((rs.filter (fun r => dayKey r = k)).map f).sum)).sum
        = (rs.map f).sum := by
  induction ks with
  | nil =>
    intro rs _ hcov
    cases rs with
    | nil => simp
    | cons r t => exact absurd (hcov r (List.mem_cons_self r t)) (by simp)
  | cons k ks ih =>
    intro rs hnd hcov
    rw [List.nodup_cons] at hnd
    have hgrp : ∀ k2 ∈ ks,
        ((rs.filter (fun r => dayKey r = k2)).map f).sum
          = (((rs.filter (fun r => ! decide (dayKey r = k))).filter
              (fun r => dayKey r = k2)).map f).sum := by
      intro k2 hk2
      have hne : k2 ≠ k := fun h => hnd.1 (h ▸ hk2)
      rw [List.filter_filter]
      have : ∀ r ∈ rs, decide (dayKey r = k2)
          = (decide (dayKey r = k2) && ! decide (dayKey r = k)) := by
        intro r _
        by_cases hr : dayKey r = k2
        · simp [hr, hne]
        · simp [hr]
      rw [List.filter_congr this]
    rw [List.map_cons, List.sum_cons, List.map_congr_left hgrp]
    have hcov2 : ∀ r ∈ rs.filter (fun r => ! decide (dayKey r = k)),
        dayKey r ∈ ks := by
      intro r hr
      have hmem : r ∈ rs := List.mem_of_mem_filter hr
      have hne : ¬ decide (dayKey r = k) = true := by
        have := List.of_mem_filter hr
        simpa using this
      rcases List.mem_cons.mp (hcov r hmem) with h1 | h1
      · exact absurd h1 (by simpa using hne)
      · exact h1
    rw [ih (rs.filter (fun r => ! decide (dayKey r = k))) hnd.2 hcov2]
    exact sum_map_filter_partition (fun r => decide (dayKey r = k)) f rs

/-- A group sum read as a rational (null read as zero) equals the sum of the
group's cells read as rationals. -/
theorem sumEnergy_getD (g : List Record) :
    (sumEnergy g).getD 0 = (g.map (fun r => r.energy_consumption.getD 0)).sum := by
  have hsum : (g.filterMap (fun r => r.energy_consumption)).sum
      = (g.map (fun r => r.energy_consumption.getD 0)).sum := by
    induction g with
    | nil => simp
    | cons r t ih => cases h : r.energy_consumption <;> simp [h, ih]
  unfold sumEnergy
  by_cases hemp : g.filterMap (fun r => r.energy_consumption) = []
  · rw [if_pos hemp, ← hsum, hemp]
    simp
  · rw [if_neg hemp]
    simpa using hsum

/-- Claim C2: for every sequence of cleaned rows (all `energy_consumption`
non-null), the `total_daily_consumption` values of the daily aggregation sum
to the same total as the `energy_consumption` values of all input rows — the
regrouping conserves the sum. -/
theorem aggregate_daily_sum_conservation (rs : List Record)
    (_hclean : ∀ r ∈ rs, r.energy_consumption.isSome = true) :
    ((aggregate_daily rs).map (fun a => a.total_daily_consumption.getD 0)).sum
      = (rs.map (fun r => r.energy_consumption.getD 0)).sum := by
  unfold aggregate_daily
  rw [List.map_map]
  have hpt : ∀ k ∈ (rs.map dayKey).dedup,
      ((fun a => a.total_daily_consumption.getD 0) ∘ (fun k =>
        ({ date := k,
           total_daily_consumption :=
             sumEnergy (rs.filter (fun r => dayKey r = k)) } : DailyAggregate))) k
        = ((rs.filter (fun r => dayKey r = k)).map
            (fun r => r.energy_consumption.getD 0)).sum := by
    intro k _
    exact sumEnergy_getD _
  rw [List.map_congr_left hpt]
  exact sum_over_groups (fun r => r.energy_consumption.getD 0)
    ((rs.map dayKey).dedup) rs (List.nodup_dedup _)
    (fun r hr => List.mem_dedup.mpr (List.mem_map_of_mem dayKey hr))

/-- Witness for C2 on the specification's scenario: days 2020-01-01 and
2020-01-02 with row values 10, 20, 5. -/
theorem aggregate_daily_sum_conservation_witness :
    (∀ r ∈ ([⟨"2020-01-01T00:00:00Z", some 10, some ⟨2020, 1, 1, 0, 0, 0⟩, []⟩,
             ⟨"2020-01-01T12:00:00Z", some 20, some ⟨2020, 1, 1, 12, 0, 0⟩, []⟩,
             ⟨"2020-01-02T00:00:00Z", some 5, some ⟨2020, 1, 2, 0, 0, 0⟩, []⟩] :
            List Record), r.energy_consumption.isSome = true) ∧
    ((aggregate_daily
        [⟨"2020-01-01T00:00:00Z", some 10, some ⟨2020, 1, 1, 0, 0, 0⟩, []⟩,
         ⟨"2020-01-01T12:00:00Z", some 20, some ⟨2020, 1, 1, 12, 0, 0⟩, []⟩,
         ⟨"2020-01-02T00:00:00Z", some 5, some ⟨2020, 1, 2, 0, 0, 0⟩, []⟩]).map
        (fun a => a.total_daily_consumption.getD 0)).sum
      = (([⟨"2020-01-01T00:00:00Z", some 10, some ⟨2020, 1, 1, 0, 0, 0⟩, []⟩,
           ⟨"2020-01-01T12:00:00Z", some 20, some ⟨2020, 1, 1, 12, 0, 0⟩, []⟩,
           ⟨"2020-01-02T00:00:00Z", some 5, some ⟨2020, 1, 2, 0, 0, 0⟩, []⟩] :
          List Record).map (fun r => r.energy_consumption.getD 0)).sum :=
  ⟨by decide,
   aggregate_daily_sum_conservation
     [⟨"2020-01-01T00:00:00Z", some 10, some ⟨2020, 1, 1, 0, 0, 0⟩, []⟩,
      ⟨"2020-01-01T12:00:00Z", some 20, some ⟨2020, 1, 1, 12, 0, 0⟩, []⟩,
      ⟨"2020-01-02T00:00:00Z", some 5, some ⟨2020, 1, 2, 0, 0, 0⟩, []⟩]
     (by decide)⟩

/-- In a duplicate-free list, the rows equal to a given value number one when
the value occurs and zero when it does not. -/
theorem length_filter_eq_of_nodup (l : List (Option Timestamp))
    (hnd : l.Nodup) (a : Option Timestamp) :
    (l.filter (fun x => x = a)).length = if a ∈ l then 1 else 0 := by
  induction l with
  | nil => simp
  | cons b t ih =>
    rw [List.nodup_cons] at hnd
    by_cases hba : b = a
    · subst hba
      rw [List.filter_cons_of_pos (by simp), if_pos (List.mem_cons_self b t)]
      have hnotmem : b ∉ t := hnd.1
      rw [List.length_cons, ih hnd.2, if_neg hnotmem]
    · have hab : ¬ a = b := fun h2 => hba h2.symm
      rw [List.filter_cons_of_neg (by simpa using hba), ih hnd.2]
      by_cases hat : a ∈ t
      · rw [if_pos hat, if_pos (List.mem_cons_of_mem b hat)]
      · rw [if_neg hat, if_neg (by simp [List.mem_cons, hab, hat])]

/-- Claim C3: for every input and every calendar day, the daily aggregation
has exactly one output row whose `date` is that day when some input row's
`date` column falls on it, and no output row for that day otherwise — one row
per distinct day present, no gap-filling. -/
theorem aggregate_daily_one_entry_per_day (rs : List Record) (d : Timestamp) :
    ((aggregate_daily rs).filter (fun a => a.date = some d)).length
      = if ∃ r ∈ rs, dayKey r = some d then 1 else 0 := by
  unfold aggregate_daily
  rw [List.filter_map]
  rw [List.length_map]
  have hcomp : ((fun a => decide (a.date = some d)) ∘ (fun k =>
      ({ date := k,
         total_daily_consumption :=
           sumEnergy (rs.filter (fun r => dayKey r = k)) } : DailyAggregate)))
      = fun k => decide (k = some d) := rfl
  rw [hcomp, length_filter_eq_of_nodup _ (List.nodup_dedup _) (some d)]
  by_cases hmem : ∃ r ∈ rs, dayKey r = some d
  · rw [if_pos hmem, if_pos]
    rw [List.mem_dedup, List.mem_map]
    obtain ⟨r, hr, hd⟩ := hmem
    exact ⟨r, hr, hd⟩
  · rw [if_neg hmem, if_neg]
    rw [List.mem_dedup, List.mem_map]
    rintro ⟨r, hr, hd⟩
    exact hmem ⟨r, hr, hd⟩
